import Mathlib

/-!
Shallow embedding of the movie-aggregation core of theCINE-v2:
the video-id resolver (`getYoutubeId`, src/backend: fetchYouTubeInfo),
the movie enricher (`buildMovieObject`), the landing-page aggregator
(`landingPageMovies`) and the popular-movie sampler
(`getRandomPopularMovies`) from src/backend/movieInfo/movieBuilder.js,
together with theorems settling the frozen claims about them.

Modelling conventions:
  * Network and database effects are oracles: an `Env` record of functions
    returning `Except JsError _` models the external collaborators (axios
    GET, catalog API client, local store).  `await`ing a promise is the
    `Except` bind; a JS thrown error / rejected promise is `Except.error`.
  * JavaScript `[...array].sort(() => 0.5 - Math.random())` is modelled by
    `List.mergeSort` under an arbitrary Boolean comparator: whatever the
    stream of `Math.random()` draws, the sort of a JS engine rearranges the
    array according to some comparison outcome; theorems quantify over the
    comparator, so they hold for every possible random draw.  Only
    distribution-free properties (length, permutation, membership) are
    derived from this model.
  * Numeric catalog fields (`vote_average`, `popularity`) are carried as
    `Int`: the code never computes with them, it only copies respectively
    orders by them, so any linearly ordered carrier is faithful.
-/

/-- Error value carried by a rejected promise / thrown JS exception. -/
inductive JsError where
  | network (msg : String)
  | stored (msg : String)
deriving DecidableEq, Repr

/-- Raw record from the movie-catalog API (spec data model: CatalogRecord). -/
structure CatalogRecord where
  id : Int
  title : String
  release_date : String
  vote_average : Int
  backdrop_path : String
deriving DecidableEq, Repr

/-- Opaque streaming-provider information returned by the catalog client. -/
structure ProviderInfo where
  info : String
deriving DecidableEq, Repr

/-- Display-ready movie object built by `buildMovieObject`
(spec data model: EnrichedMovie).  `youtubeId = none` models the JS value
`null` stored under the `youtubeId` key on a scrape miss. -/
structure EnrichedMovie where
  id : Int
  title : String
  release_date : String
  vote_average : Int
  backdrop_path : String
  youtubeId : Option String
  streamingProvider : ProviderInfo
deriving DecidableEq, Repr

/-- Row of the local SQLite store (spec data model: PopularityRow).
Only the columns the code reads (`id` for enrichment, `popularity` for
ordering) are carried. -/
structure PopularityRow where
  id : Int
  popularity : Int
deriving DecidableEq, Repr

/-- External collaborators as oracles.  `fetchHtml` models `axios.get` on a
URL (src/backend fetchYouTubeInfo).  The remaining fields are modelled from
the spec: the catalog-client functions `getStreamingProvider`,
`getMovieById`, `getTrendingMovies`, `getTopRatedMovies` live in
fetchMovieInfo.js, which is not under src/; spec section 6 describes each
as an async call returning a CatalogRecord-shaped value (or provider info,
or a list of records) or failing with a network error. -/
structure Env where
  fetchHtml : String → Except JsError String
  getStreamingProvider : Int → Except JsError ProviderInfo
  getMovieById : Int → Except JsError CatalogRecord
  getTrendingMovies : Except JsError (List CatalogRecord)
  getTopRatedMovies : Except JsError (List CatalogRecord)

/-- Upper-case hexadecimal digit for `n < 16`. -/
def hexDigit (n : Nat) : Char :=
  if n < 10 then Char.ofNat (48 + n) else Char.ofNat (55 + n)

/-- Percent-encoding of one byte, `%XY`. -/
def percentEncodeByte (b : UInt8) : List Char :=
  let n := b.toNat
  ['%', hexDigit (n / 16), hexDigit (n % 16)]

/-- Characters `encodeURIComponent` leaves intact (ECMAScript unreserved
set): alphanumerics, hyphen, underscore, dot, bang, tilde, asterisk,
apostrophe (written `Char.ofNat 39`) and parentheses. -/
def isUnreservedChar (c : Char) : Bool :=
  c.isAlphanum || c = '-' || c = '_' || c = '.' || c = '!' || c = '~' ||
    c = '*' || c = Char.ofNat 39 || c = '(' || c = ')'

/-- Model of JavaScript `encodeURIComponent`: unreserved characters pass
through, every other character is replaced by the percent-encoding of its
UTF-8 bytes. -/
def encodeURIComponent (s : String) : String :=
  String.mk (s.data.flatMap fun c =>
    if isUnreservedChar c then [c]
    else ((String.singleton c).toUTF8.toList.flatMap percentEncodeByte))

/-- Literal field marker of the regex in getYoutubeId:
the characters of `"videoId":"`. -/
def videoIdMarker : List Char := "\"videoId\":\"".data

/-- Character class `[a-zA-Z0-9_-]` of the video-id regex. -/
def isVideoIdChar (c : Char) : Bool :=
  ('a' ≤ c && c ≤ 'z') || ('A' ≤ c && c ≤ 'Z') || ('0' ≤ c && c ≤ '9') ||
    c = '_' || c = '-'

/-- Attempt of the regex `"videoId":"([a-zA-Z0-9_-]{11})"` at one position:
the marker, then exactly 11 class characters (captured), then a closing
quote. -/
def matchVideoIdAt (l : List Char) : Option String :=
  if l.take videoIdMarker.length = videoIdMarker then
    let rest := l.drop videoIdMarker.length
    let cap := rest.take 11
    if cap.length = 11 && cap.all isVideoIdChar && (rest.drop 11).take 1 = ['"'] then
      some (String.mk cap)
    else none
  else none

/-- Leftmost-match semantics of `html.match(regex)`: try the pattern at
each successive position, return the first captured token. -/
def findVideoIdSearch : List Char → Option String
  | [] => none
  | c :: cs =>
    match matchVideoIdAt (c :: cs) with
    | some v => some v
    | none => findVideoIdSearch cs

/-- Embedding of `getYoutubeId(searchQuery)` (src/backend fetchYouTubeInfo):
build the search URL, GET it, scan the HTML for the first video-id token;
`none` (JS `null`) on no match, the captured id otherwise; a failed GET
rejects. -/
def getYoutubeId (env : Env) (searchQuery : String) : Except JsError (Option String) := do
  let searchUrl :=
    "https://www.youtube.com/results?search_query=" ++ encodeURIComponent searchQuery
  let html ← env.fetchHtml searchUrl
  match findVideoIdSearch html.data with
  | none => pure none
  | some videoId => pure (some videoId)

/-- Basic display fields extracted from a catalog record
(movieBuilder.js lines 21-29). -/
structure MovieInfo where
  id : Int
  title : String
  release_date : String
  vote_average : Int
  backdrop_path : String
deriving DecidableEq, Repr

/-- Embedding of `extractMovieInfo(movie)` (movieBuilder.js lines 21-29). -/
def extractMovieInfo (movie : CatalogRecord) : MovieInfo :=
  { id := movie.id
    title := movie.title
    release_date := movie.release_date
    vote_average := movie.vote_average
    backdrop_path := movie.backdrop_path }

/-- Embedding of `buildMovieObject(movie)` (movieBuilder.js lines 32-40):
await the YouTube lookup for `title + " trailer"`, then await the
streaming-provider lookup for the id of the record, then assemble the object
from the spread of `extractMovieInfo` plus the two looked-up fields. -/
def buildMovieObject (env : Env) (movie : CatalogRecord) : Except JsError EnrichedMovie := do
  let youtubeId ← getYoutubeId env (movie.title ++ " trailer")
  let streamingProvider ← env.getStreamingProvider movie.id
  let info := extractMovieInfo movie
  pure
    { id := info.id
      title := info.title
      release_date := info.release_date
      vote_average := info.vote_average
      backdrop_path := info.backdrop_path
      youtubeId := youtubeId
      streamingProvider := streamingProvider }

/-- Embedding of `createMovieObjectFromID(tmdbId)` (movieBuilder.js
lines 43-46). -/
def createMovieObjectFromID (env : Env) (tmdbId : Int) : Except JsError EnrichedMovie := do
  let movie ← env.getMovieById tmdbId
  buildMovieObject env movie

/-- Model of JavaScript `[...array].sort(comparator)` with the random
comparator `() => 0.5 - Math.random()`: the sort of the engine rearranges the
array according to some comparison outcomes, abstracted here as an
arbitrary Boolean comparator `cmp` (one value of `cmp` per possible stream
of `Math.random()` draws). -/
def jsSort (cmp : α → α → Bool) (array : List α) : List α :=
  array.mergeSort cmp

/-- Embedding of `getRandomItems(array, count)` (movieBuilder.js
lines 55-58): shuffle a copy of the array, take the first `count`. -/
def getRandomItems (cmp : CatalogRecord → CatalogRecord → Bool)
    (array : List CatalogRecord) (count : Nat) : List CatalogRecord :=
  let shuffled := jsSort cmp array
  shuffled.take count

/-- Embedding of `shuffleArray(array)` (movieBuilder.js lines 61-63). -/
def shuffleArray (cmp : CatalogRecord → CatalogRecord → Bool)
    (array : List CatalogRecord) : List CatalogRecord :=
  jsSort cmp array

/-- Deterministic model of `Promise.all` over already-modelled outcomes:
succeeds with the list of values when every promise fulfills, rejects with
the error of a rejection as soon as one rejects (the source propagates the
first rejection and discards the fulfilled values). -/
def promiseAll : List (Except JsError α) → Except JsError (List α)
  | [] => .ok []
  | x :: xs =>
    match x with
    | .error e => .error e
    | .ok a =>
      match promiseAll xs with
      | .error e => .error e
      | .ok as => .ok (a :: as)

/-- Embedding of `landingPageMovies()` (movieBuilder.js lines 66-85):
fetch the trending and top-rated pools, sample 8 and 2, concatenate,
shuffle, then enrich all of them with `Promise.all`.  `cmpTrending`,
`cmpTopRated` and `cmpShuffle` abstract the three independent random
sorts. -/
def landingPageMovies (env : Env)
    (cmpTrending cmpTopRated cmpShuffle : CatalogRecord → CatalogRecord → Bool) :
    Except JsError (List EnrichedMovie) := do
  let trending ← env.getTrendingMovies
  let topRated ← env.getTopRatedMovies
  let trendingSample := getRandomItems cmpTrending trending 8
  let topRatedSample := getRandomItems cmpTopRated topRated 2
  let combined := trendingSample ++ topRatedSample
  let shuffled := shuffleArray cmpShuffle combined
  promiseAll (shuffled.map (fun movie => buildMovieObject env movie))

/-- Embedding of the SQL query
`SELECT * FROM movies ORDER BY popularity DESC LIMIT 1000`
(movieBuilder.js lines 92-94) against the rows existing in the store:
sort by popularity descending, keep at most 1000 rows. -/
def queryTopMovies (rowsInStore : List PopularityRow) : List PopularityRow :=
  (rowsInStore.mergeSort (fun a b => decide (b.popularity ≤ a.popularity))).take 1000

/-- Embedding of `getRandomPopularMovies()` (movieBuilder.js lines 88-108),
with the number of open store connections threaded through so that the
resource discipline is observable.  `new Database(...)` opens a connection
(count + 1).  The prepared SELECT either throws (`queryOutcome = some e`;
the function rethrows, and since there is no try/finally the `db.close()`
of line 100 is skipped) or returns `queryTopMovies rowsInStore`.  On the
success of the query the rows are shuffled, the first 10 ids kept, the
connection closed (count - 1), and the ids enriched with `Promise.all`. -/
def getRandomPopularMovies (env : Env) (rowsInStore : List PopularityRow)
    (queryOutcome : Option JsError) (cmp : PopularityRow → PopularityRow → Bool)
    (openConns : Nat) : Except JsError (List EnrichedMovie) × Nat :=
  let afterOpen := openConns + 1
  match queryOutcome with
  | some e => (.error e, afterOpen)
  | none =>
    let topMovies := queryTopMovies rowsInStore
    let shuffled := jsSort cmp topMovies
    let randomIds := (shuffled.take 10).map (fun movie => movie.id)
    let afterClose := afterOpen - 1
    match promiseAll (randomIds.map (fun id => createMovieObjectFromID env id)) with
    | .error e => (.error e, afterClose)
    | .ok movieObjects => (.ok movieObjects, afterClose)

/-- Network events of one `buildMovieObject` run, in program order:
issuing a request and the completion of its `await`. -/
inductive NetEvent where
  | issueYoutubeSearch (query : String)
  | awaitYoutubeSearch
  | issueProviderLookup (id : Int)
  | awaitProviderLookup
deriving DecidableEq, Repr

/-- Event trace of `buildMovieObject(movie)` read off movieBuilder.js
lines 33-34: `const youtubeId = await getYoutubeId(...)` issues the
YouTube search and suspends until it completes, and only then does
`const streamingProvider = await getStreamingProvider(movie.id)` issue
the provider lookup and suspend until it completes. -/
def buildMovieObjectEvents (movie : CatalogRecord) : List NetEvent :=
  [ NetEvent.issueYoutubeSearch (movie.title ++ " trailer"),
    NetEvent.awaitYoutubeSearch,
    NetEvent.issueProviderLookup movie.id,
    NetEvent.awaitProviderLookup ]

/-- Concurrent issuance: among the events of the trace, an `issueProviderLookup`
appears strictly before the completion of the YouTube `await`.  True
exactly when the two sub-requests overlap in time. -/
def providerIssuedBeforeYoutubeDone : List NetEvent → Bool
  | [] => false
  | NetEvent.issueProviderLookup _ :: _ => true
  | NetEvent.awaitYoutubeSearch :: _ => false
  | _ :: rest => providerIssuedBeforeYoutubeDone rest

/-- Sequential issuance: the YouTube `await` completes strictly before the
provider lookup is issued. -/
def youtubeDoneBeforeProviderIssued : List NetEvent → Bool
  | [] => false
  | NetEvent.awaitYoutubeSearch :: _ => true
  | NetEvent.issueProviderLookup _ :: _ => false
  | _ :: rest => youtubeDoneBeforeProviderIssued rest

/-- JavaScript values as they appear in the returned movie object;
`null` is a value, distinct from a key being absent. -/
inductive JSValue where
  | null
  | str (s : String)
  | num (n : Int)
  | providerVal (p : ProviderInfo)
deriving DecidableEq, Repr

/-- Key-value view of the object literal returned by `buildMovieObject`
(movieBuilder.js lines 35-39): the spread of the five keys of
`extractMovieInfo` followed by the shorthand properties `youtubeId` and
`streamingProvider`.  A `youtubeId` of `none` is the JS value `null`
stored under the key, not an omitted key. -/
def movieObjectEntries (em : EnrichedMovie) : List (String × JSValue) :=
  [ ("id", JSValue.num em.id),
    ("title", JSValue.str em.title),
    ("release_date", JSValue.str em.release_date),
    ("vote_average", JSValue.num em.vote_average),
    ("backdrop_path", JSValue.str em.backdrop_path),
    ("youtubeId", match em.youtubeId with
      | none => JSValue.null
      | some s => JSValue.str s),
    ("streamingProvider", JSValue.providerVal em.streamingProvider) ]

/-- Shared fixtures for concrete evaluations. -/
def sampleProvider : ProviderInfo := { info := "Netflix" }

def movieA : CatalogRecord :=
  { id := 7
    title := "Heat"
    release_date := "1995-12-15"
    vote_average := 8
    backdrop_path := "/heat.jpg" }

/-- Page body holding one well-formed video-id token. -/
def htmlWithToken : String := "<html>\"videoId\":\"abcDEF12345\" rest</html>"

/-- Page body holding no video-id token. -/
def htmlNoToken : String := "<html>no trailers here</html>"

/-- Environment whose calls all succeed. -/
def envOk : Env :=
  { fetchHtml := fun _ => .ok htmlWithToken
    getStreamingProvider := fun _ => .ok sampleProvider
    getMovieById := fun i =>
      .ok { id := i
            title := "Heat"
            release_date := "1995-12-15"
            vote_average := 8
            backdrop_path := "/heat.jpg" }
    getTrendingMovies := .ok [movieA]
    getTopRatedMovies := .ok [] }

/-- Enriched object `buildMovieObject` yields for `movieA` under `envOk`. -/
def enrichedA : EnrichedMovie :=
  { id := 7
    title := "Heat"
    release_date := "1995-12-15"
    vote_average := 8
    backdrop_path := "/heat.jpg"
    youtubeId := some "abcDEF12345"
    streamingProvider := sampleProvider }

/-- Inversion of a successful `Except` bind. -/
theorem except_bind_ok {ε α β : Type} {x : Except ε α} {f : α → Except ε β} {b : β}
    (h : x >>= f = .ok b) : ∃ a, x = .ok a ∧ f a = .ok b := by
  cases x with
  | error e => simp [Bind.bind, Except.bind] at h
  | ok a => exact ⟨a, rfl, by simpa [Bind.bind, Except.bind] using h⟩

/-- Unfolding of `buildMovieObject` on success: both sub-calls succeeded and
the result is the assembled record. -/
theorem buildMovieObject_ok_inv {env : Env} {movie : CatalogRecord} {em : EnrichedMovie}
    (h : buildMovieObject env movie = .ok em) :
    ∃ yt sp, getYoutubeId env (movie.title ++ " trailer") = .ok yt ∧
      env.getStreamingProvider movie.id = .ok sp ∧
      em = { id := movie.id
             title := movie.title
             release_date := movie.release_date
             vote_average := movie.vote_average
             backdrop_path := movie.backdrop_path
             youtubeId := yt
             streamingProvider := sp } := by
  unfold buildMovieObject at h
  obtain ⟨yt, hyt, h⟩ := except_bind_ok h
  obtain ⟨sp, hsp, h⟩ := except_bind_ok h
  refine ⟨yt, sp, hyt, hsp, ?_⟩
  simp only [extractMovieInfo, pure, Except.pure, Except.ok.injEq] at h
  exact h.symm

/-- Helper: a successful enrichment copies the `id` of the record. -/
theorem buildMovieObject_id_of_ok {env : Env} {movie : CatalogRecord} {em : EnrichedMovie}
    (h : buildMovieObject env movie = .ok em) : em.id = movie.id := by
  obtain ⟨yt, sp, _, _, hem⟩ := buildMovieObject_ok_inv h
  rw [hem]

/-- Length preservation of a fully successful `Promise.all`. -/
theorem promiseAll_ok_length {α : Type} {xs : List (Except JsError α)} {as : List α}
    (h : promiseAll xs = .ok as) : as.length = xs.length := by
  induction xs generalizing as with
  | nil => simp [promiseAll] at h; simp [h]
  | cons x xs ih =>
    cases x with
    | error e => simp [promiseAll] at h
    | ok a =>
      simp only [promiseAll] at h
      cases hrec : promiseAll xs with
      | error e => rw [hrec] at h; exact absurd h (by simp)
      | ok bs =>
        rw [hrec] at h
        cases h
        simp [ih hrec]

/-- Index correspondence of a fully successful `Promise.all`: the joined
sequence is index-correlated with the input sequence. -/
theorem promiseAll_ok_get {α : Type} {xs : List (Except JsError α)} {as : List α}
    (h : promiseAll xs = .ok as) :
    ∀ i (hi : i < as.length) (hx : i < xs.length), xs.get ⟨i, hx⟩ = .ok (as.get ⟨i, hi⟩) := by
  induction xs generalizing as with
  | nil => intro i hi hx; exact absurd hx (by simp)
  | cons x xs ih =>
    cases x with
    | error e => simp [promiseAll] at h
    | ok a =>
      simp only [promiseAll] at h
      cases hrec : promiseAll xs with
      | error e => rw [hrec] at h; exact absurd h (by simp)
      | ok bs =>
        rw [hrec] at h
        cases h
        intro i hi hx
        cases i with
        | zero => rfl
        | succ j => exact ih hrec j (Nat.lt_of_succ_lt_succ hi) (Nat.lt_of_succ_lt_succ hx)

/-- C1: for every CatalogRecord on which enrichment succeeds, the
EnrichedMovie returned by `buildMovieObject` has `id` equal to the input
`id` of the input record; and in an enriched batch (the `Promise.all`
fan-out over a list of records) the result is index-correlated, the `id`
of every output equalling the `id` of the input record at the same position — no
cross-contamination of ids between records. -/
theorem buildMovieObject_preserves_id :
    (∀ (env : Env) (movie : CatalogRecord) (em : EnrichedMovie),
        buildMovieObject env movie = .ok em → em.id = movie.id) ∧
    (∀ (env : Env) (batch : List CatalogRecord) (ems : List EnrichedMovie),
        promiseAll (batch.map (fun movie => buildMovieObject env movie)) = .ok ems →
          ems.length = batch.length ∧
          ∀ i (hi : i < ems.length) (hb : i < batch.length),
            (ems.get ⟨i, hi⟩).id = (batch.get ⟨i, hb⟩).id) := by
  refine ⟨fun env movie em h => buildMovieObject_id_of_ok h, ?_⟩
  intro env batch ems h
  have hlen := promiseAll_ok_length h
  have hlen' : (batch.map (fun movie => buildMovieObject env movie)).length = batch.length :=
    List.length_map _ _
  refine ⟨by rw [hlen, hlen'], ?_⟩
  intro i hi hb
  have hx : i < (batch.map (fun movie => buildMovieObject env movie)).length := by
    rw [hlen']; exact hb
  have hg := promiseAll_ok_get h i hi hx
  rw [List.get_eq_getElem, List.getElem_map] at hg
  rw [List.get_eq_getElem]
  exact buildMovieObject_id_of_ok hg

/-- Witness for C1 at a concrete record and environment. -/
theorem buildMovieObject_preserves_id_witness :
    buildMovieObject envOk movieA = .ok enrichedA ∧ enrichedA.id = movieA.id :=
  ⟨rfl, buildMovieObject_preserves_id.1 envOk movieA enrichedA rfl⟩

/-- Environment whose page fetch succeeds with a body holding no video-id
token; everything else succeeds. -/
def envNoToken : Env :=
  { envOk with fetchHtml := fun _ => .ok htmlNoToken }

/-- Environment whose page fetch fails with a network error. -/
def envDown : Env :=
  { envOk with fetchHtml := fun _ => .error (JsError.network "timeout") }

/-- Environment whose streaming-provider lookup rejects; the page fetch
succeeds. -/
def envProviderDown : Env :=
  { envOk with getStreamingProvider := fun _ => .error (JsError.network "ECONNRESET") }

/-- Counterexample to C5: at the concrete record `movieA`, the event trace
of `buildMovieObject` never issues the provider lookup before the YouTube
`await` has completed — the two sub-requests are not concurrent. -/
theorem buildMovieObject_not_concurrent :
    providerIssuedBeforeYoutubeDone (buildMovieObjectEvents movieA) = false := by decide

/-- C5 amended: `buildMovieObject` issues its two sub-requests
sequentially, not concurrently: it issues the trailer video-id lookup
(with the title plus the fixed suffix " trailer" as the search query) and
the streaming-provider lookup (by catalog id), but the YouTube `await`
completes strictly before the provider lookup is issued, and the provider
lookup is never issued while the YouTube request is in flight. -/
theorem buildMovieObject_requests_sequential (movie : CatalogRecord) :
    NetEvent.issueYoutubeSearch (movie.title ++ " trailer") ∈ buildMovieObjectEvents movie ∧
    NetEvent.issueProviderLookup movie.id ∈ buildMovieObjectEvents movie ∧
    youtubeDoneBeforeProviderIssued (buildMovieObjectEvents movie) = true ∧
    providerIssuedBeforeYoutubeDone (buildMovieObjectEvents movie) = false := by
  refine ⟨?_, ?_, rfl, rfl⟩ <;> simp [buildMovieObjectEvents]

/-- C2, evaluated at the failing input: when the store query throws
(modelled by `queryOutcome = some e`), `getRandomPopularMovies` rethrows
without ever reaching the `db.close()` of line 100, so a call entered with
0 open connections exits with 1 open connection — the handle leaks. -/
theorem getRandomPopularMovies_leaks_on_query_throw :
    getRandomPopularMovies envOk [{ id := 1, popularity := 5 }]
        (some (JsError.stored "SQLITE_ERROR")) (fun _ _ => true) 0 =
      (.error (JsError.stored "SQLITE_ERROR"), 1) := rfl

/-- Scan exhaustion: when the pattern fails at every position of the page
body, the leftmost-match scan returns `none`. -/
theorem findVideoIdSearch_eq_none {l : List Char}
    (h : ∀ i : Nat, matchVideoIdAt (l.drop i) = none) : findVideoIdSearch l = none := by
  induction l with
  | nil => rfl
  | cons c cs ih =>
    have h0 : matchVideoIdAt (c :: cs) = none := h 0
    simp only [findVideoIdSearch, h0]
    exact ih (fun i => h (i + 1))

/-- Reduction of the no-match hypothesis to a finite check: positions at or
beyond the page length match trivially against the empty suffix. -/
theorem matchVideoIdAt_all_none_of_bounded {l : List Char}
    (h : ∀ i < l.length, matchVideoIdAt (l.drop i) = none) :
    ∀ i : Nat, matchVideoIdAt (l.drop i) = none := by
  intro i
  by_cases hi : i < l.length
  · exact h i hi
  · rw [List.drop_eq_nil_of_le (Nat.le_of_not_lt hi)]
    rfl

/-- C9: when the fetched page body contains no substring matching the
video-id pattern at any position, `getYoutubeId` returns `ok none` (JS
`null`) rather than throwing, while a failed fetch propagates as the same
error — absence and network failure are distinguishable outcomes. -/
theorem getYoutubeId_absent_vs_network_error (env env2 : Env) (q q2 html : String)
    (e : JsError)
    (hfetch : env.fetchHtml
        ("https://www.youtube.com/results?search_query=" ++ encodeURIComponent q) = .ok html)
    (hnomatch : ∀ i : Nat, matchVideoIdAt (html.data.drop i) = none)
    (hfetch2 : env2.fetchHtml
        ("https://www.youtube.com/results?search_query=" ++ encodeURIComponent q2) = .error e) :
    getYoutubeId env q = .ok none ∧ getYoutubeId env2 q2 = .error e := by
  constructor
  · unfold getYoutubeId
    dsimp only
    rw [hfetch]
    simp [Bind.bind, Except.bind, findVideoIdSearch_eq_none hnomatch, pure, Except.pure]
  · unfold getYoutubeId
    dsimp only
    rw [hfetch2]
    simp [Bind.bind, Except.bind]

/-- Witness for C9 at a concrete tokenless page and a concrete failing
fetch. -/
theorem getYoutubeId_absent_vs_network_error_witness :
    getYoutubeId envNoToken "dune trailer" = .ok none ∧
    getYoutubeId envDown "dune trailer" = .error (JsError.network "timeout") :=
  getYoutubeId_absent_vs_network_error envNoToken envDown "dune trailer" "dune trailer"
    htmlNoToken (JsError.network "timeout") rfl
    (matchVideoIdAt_all_none_of_bounded (by decide)) rfl

/-- C10: every successfully enriched movie object carries both the
`youtubeId` and the `streamingProvider` keys, and on a scrape miss (the
YouTube lookup resolving to `null`) the `youtubeId` key is present with
the value `null`, not omitted. -/
theorem movieObject_has_lookup_keys (env : Env) (movie : CatalogRecord)
    (em : EnrichedMovie) (h : buildMovieObject env movie = .ok em) :
    "youtubeId" ∈ (movieObjectEntries em).map Prod.fst ∧
    "streamingProvider" ∈ (movieObjectEntries em).map Prod.fst ∧
    (getYoutubeId env (movie.title ++ " trailer") = .ok none →
      (movieObjectEntries em).lookup "youtubeId" = some JSValue.null) := by
  refine ⟨by simp [movieObjectEntries], by simp [movieObjectEntries], ?_⟩
  intro hmiss
  obtain ⟨yt, sp, hyt, hsp, hem⟩ := buildMovieObject_ok_inv h
  rw [hmiss] at hyt
  cases hyt
  rw [hem]
  rfl

/-- Witness for C10: a concrete enrichment under a tokenless page yields an
object whose `youtubeId` key holds `null`. -/
theorem movieObject_has_lookup_keys_witness :
    (movieObjectEntries { enrichedA with youtubeId := none }).lookup "youtubeId" =
      some JSValue.null :=
  (movieObject_has_lookup_keys envNoToken movieA
    { enrichedA with youtubeId := none } rfl).2.2 rfl

/-- Membership of a fully successful `Promise.all`: every joined value came
from a fulfilled input promise. -/
theorem promiseAll_ok_mem {α : Type} {xs : List (Except JsError α)} {as : List α}
    (h : promiseAll xs = .ok as) : ∀ a ∈ as, Except.ok a ∈ xs := by
  induction xs generalizing as with
  | nil =>
    simp only [promiseAll, Except.ok.injEq] at h
    subst h
    intro a ha
    cases ha
  | cons x xs ih =>
    cases x with
    | error e => simp [promiseAll] at h
    | ok b =>
      simp only [promiseAll] at h
      cases hrec : promiseAll xs with
      | error e => rw [hrec] at h; exact absurd h (by simp)
      | ok bs =>
        rw [hrec] at h
        cases h
        intro a ha
        rcases List.mem_cons.mp ha with h | h
        · subst h; exact List.mem_cons_self _ _
        · exact List.mem_cons_of_mem _ (ih hrec a h)

/-- A `Promise.all` over a batch holding a rejection rejects. -/
theorem promiseAll_isError_of_mem_error {α : Type} {xs : List (Except JsError α)}
    {e : JsError} (hmem : Except.error e ∈ xs) :
    ∃ e2, promiseAll xs = .error e2 := by
  induction xs with
  | nil => cases hmem
  | cons x xs ih =>
    cases x with
    | error e1 => exact ⟨e1, rfl⟩
    | ok a =>
      have hmem2 : Except.error e ∈ xs := by
        rcases List.mem_cons.mp hmem with h | h
        · exact absurd h (by simp)
        · exact h
      obtain ⟨e2, h2⟩ := ih hmem2
      exact ⟨e2, by simp [promiseAll, h2]⟩

/-- When every rejection in the batch carries the same error `e` and at
least one input rejects, `Promise.all` rejects with `e`. -/
theorem promiseAll_error_of_all_same {α : Type} {xs : List (Except JsError α)}
    {e : JsError} (hmem : Except.error e ∈ xs)
    (hall : ∀ x ∈ xs, x = Except.error e ∨ ∃ a, x = Except.ok a) :
    promiseAll xs = .error e := by
  induction xs with
  | nil => cases hmem
  | cons x xs ih =>
    rcases hall x (List.mem_cons_self _ _) with hx | ⟨a, hx⟩
    · subst hx; rfl
    · subst hx
      have hmem2 : Except.error e ∈ xs := by
        rcases List.mem_cons.mp hmem with h | h
        · exact absurd h (by simp)
        · exact h
      have h2 := ih hmem2 (fun y hy => hall y (List.mem_cons_of_mem _ hy))
      simp [promiseAll, h2]

/-- Unfolding of `landingPageMovies` once both pool fetches have
succeeded: it is the `Promise.all` of the enrichments of the shuffled
concatenation of the two samples. -/
theorem landingPageMovies_eq (env : Env)
    (c1 c2 c3 : CatalogRecord → CatalogRecord → Bool)
    (t r : List CatalogRecord)
    (ht : env.getTrendingMovies = .ok t) (hr : env.getTopRatedMovies = .ok r) :
    landingPageMovies env c1 c2 c3 =
      promiseAll ((shuffleArray c3 (getRandomItems c1 t 8 ++ getRandomItems c2 r 2)).map
        (fun movie => buildMovieObject env movie)) := by
  unfold landingPageMovies
  rw [ht, hr]
  simp [Bind.bind, Except.bind]

/-- Unfolding of `createMovieObjectFromID` on success. -/
theorem createMovieObjectFromID_ok_inv {env : Env} {tmdbId : Int} {em : EnrichedMovie}
    (h : createMovieObjectFromID env tmdbId = .ok em) :
    ∃ movie, env.getMovieById tmdbId = .ok movie ∧ buildMovieObject env movie = .ok em := by
  unfold createMovieObjectFromID at h
  exact except_bind_ok h

/-- Unfolding of `getRandomPopularMovies` when the query succeeds and the
batch enrichment fulfills. -/
theorem getRandomPopularMovies_ok_inv {env : Env} {rows : List PopularityRow}
    {cmp : PopularityRow → PopularityRow → Bool} {conns conns2 : Nat}
    {ems : List EnrichedMovie}
    (h : getRandomPopularMovies env rows none cmp conns = (.ok ems, conns2)) :
    promiseAll ((((jsSort cmp (queryTopMovies rows)).take 10).map
        (fun movie => movie.id)).map (fun i => createMovieObjectFromID env i)) = .ok ems := by
  unfold getRandomPopularMovies at h
  dsimp only at h
  cases hp : promiseAll ((((jsSort cmp (queryTopMovies rows)).take 10).map
      (fun movie => movie.id)).map (fun i => createMovieObjectFromID env i)) with
  | error e => rw [hp] at h; exact absurd h (by simp)
  | ok ms => rw [hp] at h; cases h; rfl

/-- Trivial comparator on catalog records, one concrete value of the
abstracted random comparator. -/
def cmpTrue : CatalogRecord → CatalogRecord → Bool := fun _ _ => true

/-- Trivial comparator on store rows. -/
def cmpRowTrue : PopularityRow → PopularityRow → Bool := fun _ _ => true

/-- C3: whenever one movie of the shuffled candidate batch fails to
enrich, `landingPageMovies` never fulfills with any list (no partial
result); and when every other candidate enriches successfully — the
9-succeed-1-fails scenario — the whole call rejects with exactly the
error of the failing enrichment. -/
theorem landingPageMovies_rejects_on_failure (env : Env)
    (c1 c2 c3 : CatalogRecord → CatalogRecord → Bool)
    (t r : List CatalogRecord) (m : CatalogRecord) (e : JsError)
    (ht : env.getTrendingMovies = .ok t) (hr : env.getTopRatedMovies = .ok r)
    (hm : m ∈ shuffleArray c3 (getRandomItems c1 t 8 ++ getRandomItems c2 r 2))
    (hfail : buildMovieObject env m = .error e) :
    (∀ ems, landingPageMovies env c1 c2 c3 ≠ .ok ems) ∧
    ((∀ m2 ∈ shuffleArray c3 (getRandomItems c1 t 8 ++ getRandomItems c2 r 2),
        buildMovieObject env m2 = .error e ∨ ∃ em, buildMovieObject env m2 = .ok em) →
      landingPageMovies env c1 c2 c3 = .error e) := by
  have hmemErr : Except.error e ∈
      (shuffleArray c3 (getRandomItems c1 t 8 ++ getRandomItems c2 r 2)).map
        (fun movie => buildMovieObject env movie) :=
    List.mem_map.mpr ⟨m, hm, hfail⟩
  rw [landingPageMovies_eq env c1 c2 c3 t r ht hr]
  constructor
  · intro ems hok
    obtain ⟨e2, he2⟩ := promiseAll_isError_of_mem_error hmemErr
    rw [hok] at he2
    exact absurd he2 (by simp)
  · intro hall
    apply promiseAll_error_of_all_same hmemErr
    intro x hx
    rcases List.mem_map.mp hx with ⟨m2, hm2, hxeq⟩
    rcases hall m2 hm2 with h | ⟨em, hh⟩
    · left; rw [← hxeq, h]
    · right; exact ⟨em, by rw [← hxeq, hh]⟩

unseal List.merge List.mergeSort in
/-- Witness for C3: with one candidate whose provider lookup rejects, the
whole landing-page call rejects with that error. -/
theorem landingPageMovies_rejects_on_failure_witness :
    landingPageMovies envProviderDown cmpTrue cmpTrue cmpTrue =
      .error (JsError.network "ECONNRESET") :=
  (landingPageMovies_rejects_on_failure envProviderDown cmpTrue cmpTrue cmpTrue
      [movieA] [] movieA (JsError.network "ECONNRESET") rfl rfl (by decide) rfl).2
    (by
      have hset : shuffleArray cmpTrue
          (getRandomItems cmpTrue [movieA] 8 ++ getRandomItems cmpTrue [] 2) = [movieA] := by
        decide
      intro m2 hm2
      rw [hset, List.mem_singleton] at hm2
      subst hm2
      exact Or.inl rfl)

/-- C4: when both pool fetches and the batch enrichment succeed, the
landing page holds exactly `min 8 |trending| + min 2 |topRated|` items;
and sampling a pool shorter than the requested count degrades to a
permutation of the whole pool (never a crash — the functions are total). -/
theorem landingPageMovies_item_count (env : Env)
    (c1 c2 c3 : CatalogRecord → CatalogRecord → Bool)
    (t r : List CatalogRecord) (ems : List EnrichedMovie)
    (ht : env.getTrendingMovies = .ok t) (hr : env.getTopRatedMovies = .ok r)
    (hok : landingPageMovies env c1 c2 c3 = .ok ems) :
    ems.length = min 8 t.length + min 2 r.length ∧
    (∀ (cmp : CatalogRecord → CatalogRecord → Bool) (pool : List CatalogRecord)
        (count : Nat), pool.length ≤ count → (getRandomItems cmp pool count).Perm pool) := by
  constructor
  · rw [landingPageMovies_eq env c1 c2 c3 t r ht hr] at hok
    have hlen := promiseAll_ok_length hok
    rw [List.length_map] at hlen
    rw [hlen]
    show (List.mergeSort _ c3).length = _
    rw [List.length_mergeSort, List.length_append]
    show (List.take 8 (List.mergeSort t c1)).length +
        (List.take 2 (List.mergeSort r c2)).length = _
    rw [List.length_take, List.length_take, List.length_mergeSort, List.length_mergeSort]
  · intro cmp pool count hshort
    show (List.take count (List.mergeSort pool cmp)).Perm pool
    rw [List.take_of_length_le (by rw [List.length_mergeSort]; exact hshort)]
    exact List.mergeSort_perm pool cmp

unseal List.merge List.mergeSort in
/-- Witness for C4: one trending movie and an empty top-rated pool yield
exactly `min 8 1 + min 2 0 = 1` item. -/
theorem landingPageMovies_item_count_witness :
    landingPageMovies envOk cmpTrue cmpTrue cmpTrue = .ok [enrichedA] ∧
    [enrichedA].length =
      min 8 ([movieA] : List CatalogRecord).length + min 2 ([] : List CatalogRecord).length :=
  ⟨rfl,
    (landingPageMovies_item_count envOk cmpTrue cmpTrue cmpTrue [movieA] [] [enrichedA]
        rfl rfl rfl).1⟩

/-- C7: for every comparator outcome (that is, for every draw of the
random source), the shuffle used by `landingPageMovies` returns a
permutation of exactly its input — the multiset of ids is unchanged — and
every item produced by `getRandomItems` is an element of the pool it was
sampled from. -/
theorem shuffleArray_perm_and_sample_mem :
    (∀ (cmp : CatalogRecord → CatalogRecord → Bool) (l : List CatalogRecord),
        (shuffleArray cmp l).Perm l ∧
        Multiset.ofList ((shuffleArray cmp l).map (fun m => m.id)) =
          Multiset.ofList (l.map (fun m => m.id))) ∧
    (∀ (cmp : CatalogRecord → CatalogRecord → Bool) (pool : List CatalogRecord)
        (count : Nat) (m : CatalogRecord), m ∈ getRandomItems cmp pool count → m ∈ pool) := by
  constructor
  · intro cmp l
    have hp : (shuffleArray cmp l).Perm l := List.mergeSort_perm l cmp
    exact ⟨hp, Multiset.coe_eq_coe.mpr (hp.map _)⟩
  · intro cmp pool count m hmem
    have hm2 : m ∈ jsSort cmp pool := List.mem_of_mem_take hmem
    exact (List.mergeSort_perm pool cmp).mem_iff.mp hm2

unseal List.merge List.mergeSort in
/-- Witness for C7 at a concrete one-element pool. -/
theorem shuffleArray_perm_and_sample_mem_witness :
    movieA ∈ getRandomItems cmpTrue [movieA] 1 ∧ movieA ∈ [movieA] :=
  ⟨by decide, shuffleArray_perm_and_sample_mem.2 cmpTrue [movieA] 1 movieA (by decide)⟩

/-- C8: whenever the store query succeeds against the rows existing in the
store and the call fulfills, `getRandomPopularMovies` returns at most 10
items, and — provided the catalog client returns records under their
queried id — the id of every returned item comes from the up-to-1000 rows of
highest popularity (`queryTopMovies`, the embedded
`ORDER BY popularity DESC LIMIT 1000` query). -/
theorem getRandomPopularMovies_bounded_from_top (env : Env)
    (rows : List PopularityRow) (cmp : PopularityRow → PopularityRow → Bool)
    (conns conns2 : Nat) (ems : List EnrichedMovie)
    (hid : ∀ (i : Int) (m : CatalogRecord), env.getMovieById i = .ok m → m.id = i)
    (hrun : getRandomPopularMovies env rows none cmp conns = (.ok ems, conns2)) :
    ems.length ≤ 10 ∧
    ∀ em ∈ ems, em.id ∈ (queryTopMovies rows).map (fun row => row.id) := by
  have hps := getRandomPopularMovies_ok_inv hrun
  constructor
  · have hlen := promiseAll_ok_length hps
    rw [List.length_map, List.length_map, List.length_take] at hlen
    rw [hlen]
    exact min_le_left _ _
  · intro em hem
    have hok := promiseAll_ok_mem hps em hem
    rcases List.mem_map.mp hok with ⟨i, hi, hcreate⟩
    rcases List.mem_map.mp hi with ⟨row, hrow, hrowid⟩
    rcases createMovieObjectFromID_ok_inv hcreate with ⟨movie, hgm, hbuild⟩
    have h1 : movie.id = i := hid i movie hgm
    have h2 : em.id = movie.id := buildMovieObject_id_of_ok hbuild
    have hrowTop : row ∈ queryTopMovies rows :=
      (List.mergeSort_perm (queryTopMovies rows) cmp).mem_iff.mp (List.mem_of_mem_take hrow)
    exact List.mem_map.mpr ⟨row, hrowTop, by rw [hrowid, ← h1, ← h2]⟩

/-- Enriched object produced for store row id 1 under `envOk`. -/
def enriched1 : EnrichedMovie :=
  { id := 1
    title := "Heat"
    release_date := "1995-12-15"
    vote_average := 8
    backdrop_path := "/heat.jpg"
    youtubeId := some "abcDEF12345"
    streamingProvider := sampleProvider }

unseal List.merge List.mergeSort in
/-- Witness for C8 at a one-row store. -/
theorem getRandomPopularMovies_bounded_from_top_witness :
    getRandomPopularMovies envOk [{ id := 1, popularity := 5 }] none cmpRowTrue 0 =
      (.ok [enriched1], 0) ∧
    [enriched1].length ≤ 10 ∧
    ∀ em ∈ [enriched1],
      em.id ∈ (queryTopMovies [{ id := 1, popularity := 5 }]).map (fun row => row.id) :=
  ⟨rfl,
    getRandomPopularMovies_bounded_from_top envOk [{ id := 1, popularity := 5 }]
      cmpRowTrue 0 0 [enriched1] (fun i m h => by cases h; rfl) rfl⟩
